import Mathlib

/-!
Verification of the authenticated-session cache of the Test200126
Playwright test suite (fixtures and page-object helpers), as a shallow
embedding in Lean.

The filesystem is modelled as a map from paths to optional file records
(modification time and an opaque content blob).  The Node fs primitives
used by the fixture (existsSync, statSync, unlinkSync, and the
storageState write) are embedded as functions over that map; each
primitive may additionally fail, which is modelled by an explicit error
oracle, so that the try/catch structure of the source is visible in the
embedding.
-/

namespace Test200126

/-- Modification time (milliseconds) and opaque content blob of a file on
disk.  The content is opaque to the cache, so it is modelled as a bare
number. -/
structure FileInfo where
  mtime : Int
  content : Nat
deriving DecidableEq

/-- A filesystem: each path holds at most one file. -/
abbrev Fs := String → Option FileInfo

/-- Error oracle for the fs primitives: which of the calls made by the
fixture throw an I/O error on this run. -/
structure ErrOracle where
  existsErr : Bool
  statErr : Bool
  unlinkErr : Bool
deriving DecidableEq

/-- The oracle of an error-free run. -/
def noErr : ErrOracle := ⟨false, false, false⟩

/-- Resolved value of path.join(dirname, .., .auth, user.json) from
auth.fixture: the single identity path of the persisted session state. -/
def STORAGE_STATE_PATH : String := ".auth/user.json"

/-- AUTH_STATE_MAX_AGE_MS from auth.fixture: one hour in milliseconds. -/
def AUTH_STATE_MAX_AGE_MS : Int := 60 * 60 * 1000

/-- Model of fs.existsSync at a path (may throw per the oracle). -/
def existsSync (e : ErrOracle) (fs : Fs) (p : String) : Except Unit Bool :=
  if e.existsErr then .error () else .ok (fs p).isSome

/-- Model of fs.statSync at a path: returns the file record, throws when
the oracle says so or when no file exists (ENOENT). -/
def statSync (e : ErrOracle) (fs : Fs) (p : String) : Except Unit FileInfo :=
  if e.statErr then .error ()
  else
    match fs p with
    | some fi => .ok fi
    | none => .error ()

/-- Model of fs.unlinkSync at a path: removes the file, throws when the
oracle says so or when no file exists. -/
def unlinkSync (e : ErrOracle) (fs : Fs) (p : String) : Except Unit Fs :=
  if e.unlinkErr then .error ()
  else
    match fs p with
    | some _ => .ok (fun q => if q = STORAGE_STATE_PATH then none else fs q)
    | none => .error ()

/-- isAuthStateStale from auth.fixture: inside a try/catch, returns true
when the state file does not exist, otherwise compares the age
(now minus mtime) against AUTH_STATE_MAX_AGE_MS; the catch turns any
thrown error into true. -/
def isAuthStateStale (e : ErrOracle) (fs : Fs) (now : Int) : Bool :=
  match existsSync e fs STORAGE_STATE_PATH with
  | .error _ => true
  | .ok ex =>
    if !ex then true
    else
      match statSync e fs STORAGE_STATE_PATH with
      | .error _ => true
      | .ok stats => decide (now - stats.mtime > AUTH_STATE_MAX_AGE_MS)

/-- The try-block of clearAuthState: if the file exists, unlink it. -/
def clearAuthStateTry (e : ErrOracle) (fs : Fs) : Except Unit Fs :=
  match existsSync e fs STORAGE_STATE_PATH with
  | .error er => .error er
  | .ok ex => if ex then unlinkSync e fs STORAGE_STATE_PATH else .ok fs

/-- clearAuthState from auth.fixture: deletes the state file if present;
the catch swallows every error, leaving the filesystem as it was at the
point of failure. -/
def clearAuthState (e : ErrOracle) (fs : Fs) : Fs :=
  match clearAuthStateTry e fs with
  | .ok fs2 => fs2
  | .error _ => fs

/-- Helper: under the error-free oracle the staleness check reduces to a
direct reading of the file entry. -/
theorem isAuthStateStale_noErr_eq (fs : Fs) (now : Int) :
    isAuthStateStale noErr fs now =
      (match fs STORAGE_STATE_PATH with
       | none => true
       | some fi => decide (now - fi.mtime > AUTH_STATE_MAX_AGE_MS)) := by
  unfold isAuthStateStale existsSync statSync noErr
  cases h : fs STORAGE_STATE_PATH <;> simp [h]

/-- Claim C1: isAuthStateStale returns true if and only if no file exists
at the state path or now minus the modification time exceeds the maximum
age; a state whose age is exactly the maximum age is still fresh (false
for every t in the closed interval from t0 to t0 plus maxAge, true
strictly beyond it); and any I/O error while checking existence or
reading the modification time yields true. -/
theorem isAuthStateStale_spec :
    (∀ (fs : Fs) (now : Int),
        isAuthStateStale noErr fs now = true ↔
          (fs STORAGE_STATE_PATH = none ∨
            ∃ fi, fs STORAGE_STATE_PATH = some fi ∧
              now - fi.mtime > AUTH_STATE_MAX_AGE_MS)) ∧
    (∀ (fs : Fs) (t0 : Int) (blob : Nat) (t : Int),
        fs STORAGE_STATE_PATH = some ⟨t0, blob⟩ →
          ((t0 ≤ t ∧ t ≤ t0 + AUTH_STATE_MAX_AGE_MS) →
              isAuthStateStale noErr fs t = false) ∧
          (t > t0 + AUTH_STATE_MAX_AGE_MS →
              isAuthStateStale noErr fs t = true)) ∧
    (∀ (e : ErrOracle) (fs : Fs) (now : Int),
        (e.existsErr = true ∨ e.statErr = true) →
          isAuthStateStale e fs now = true) := by
  refine ⟨?_, ?_, ?_⟩
  · intro fs now
    rw [isAuthStateStale_noErr_eq]
    cases h : fs STORAGE_STATE_PATH with
    | none => simp [h]
    | some fi =>
      simp only [h, decide_eq_true_eq]
      constructor
      · intro hgt
        exact Or.inr ⟨fi, rfl, hgt⟩
      · rintro (hnone | ⟨fi2, hfi2, hgt⟩)
        · exact absurd hnone (by simp)
        · rw [Option.some_inj] at hfi2
          rw [hfi2]
          exact hgt
  · intro fs t0 blob t h
    rw [isAuthStateStale_noErr_eq, h]
    constructor
    · intro ⟨h1, h2⟩
      simp only [decide_eq_false_iff_not]
      omega
    · intro hgt
      simp only [decide_eq_true_eq]
      omega
  · intro e fs now h
    unfold isAuthStateStale existsSync statSync
    rcases h with h | h
    · simp [h]
    · cases he : e.existsErr with
      | true => simp [he]
      | false =>
        cases hf : fs STORAGE_STATE_PATH <;> simp [he, h, hf]

/-- Witness for C1 at concrete inputs: an absent file is stale, a file of
age exactly one hour is fresh, one millisecond older is stale, and an
erring existence check is stale. -/
theorem isAuthStateStale_spec_witness :
    isAuthStateStale noErr (fun _ => none) 0 = true ∧
    isAuthStateStale noErr
      (fun q => if q = STORAGE_STATE_PATH then some ⟨0, 7⟩ else none)
      3600000 = false ∧
    isAuthStateStale noErr
      (fun q => if q = STORAGE_STATE_PATH then some ⟨0, 7⟩ else none)
      3600001 = true ∧
    isAuthStateStale ⟨true, false, false⟩ (fun _ => none) 0 = true := by
  refine ⟨?_, ?_, ?_, ?_⟩
  · exact (isAuthStateStale_spec.1 (fun _ => none) 0).mpr (Or.inl rfl)
  · exact ((isAuthStateStale_spec.2.1
      (fun q => if q = STORAGE_STATE_PATH then some ⟨0, 7⟩ else none)
      0 7 3600000 (by simp)).1) ⟨by decide, by decide⟩
  · exact ((isAuthStateStale_spec.2.1
      (fun q => if q = STORAGE_STATE_PATH then some ⟨0, 7⟩ else none)
      0 7 3600001 (by simp)).2) (by decide)
  · exact isAuthStateStale_spec.2.2 ⟨true, false, false⟩ (fun _ => none) 0
      (Or.inl rfl)

/-- The persistence step of setupAuthState: the storageState call writes
the captured blob to STORAGE_STATE_PATH (the parent directory is
auto-created), fully replacing any previous content; the modification
time of the file becomes the time of the write. -/
def persistState (fs : Fs) (now : Int) (blob : Nat) : Fs :=
  fun q => if q = STORAGE_STATE_PATH then some ⟨now, blob⟩ else fs q

/-- Claim C7: clearAuthState is idempotent and total: repeating it is a
no-op under every error oracle, under an error-free run it leaves no file
at the state path, and when its try-block throws the error is swallowed
and the filesystem is left unchanged. -/
theorem clearAuthState_idempotent :
    (∀ (e : ErrOracle) (fs : Fs),
        clearAuthState e (clearAuthState e fs) = clearAuthState e fs) ∧
    (∀ fs : Fs, clearAuthState noErr fs STORAGE_STATE_PATH = none) ∧
    (∀ (e : ErrOracle) (fs : Fs),
        clearAuthStateTry e fs = .error () → clearAuthState e fs = fs) := by
  refine ⟨?_, ?_, ?_⟩
  · intro e fs
    cases he : e.existsErr with
    | true => simp [clearAuthState, clearAuthStateTry, existsSync, he]
    | false =>
      cases hf : fs STORAGE_STATE_PATH with
      | none => simp [clearAuthState, clearAuthStateTry, existsSync, he, hf]
      | some fi =>
        cases hu : e.unlinkErr with
        | true =>
          simp [clearAuthState, clearAuthStateTry, existsSync, unlinkSync,
            he, hf, hu]
        | false =>
          simp [clearAuthState, clearAuthStateTry, existsSync, unlinkSync,
            he, hf, hu]
  · intro fs
    cases hf : fs STORAGE_STATE_PATH with
    | none =>
      simp [clearAuthState, clearAuthStateTry, existsSync, noErr, hf]
    | some fi =>
      simp [clearAuthState, clearAuthStateTry, existsSync, unlinkSync,
        noErr, hf]
  · intro e fs h
    unfold clearAuthState
    rw [h]

/-- Witness for C7: an erring existence check is swallowed, so the
filesystem comes back unchanged. -/
theorem clearAuthState_idempotent_witness :
    clearAuthState ⟨true, false, false⟩ (fun _ => none) = (fun _ => none) :=
  clearAuthState_idempotent.2.2 ⟨true, false, false⟩ (fun _ => none) rfl

/-- Process configuration: the two admin credential variables, each
possibly unset. -/
structure Env where
  adminUsername : Option String
  adminPassword : Option String
deriving DecidableEq

/-- Model of the JS idiom process.env.X or-else the empty string: an
unset variable reads as the empty string. -/
def envOrEmpty (v : Option String) : String := v.getD ""

/-- Browser interactions performed by the login flow, recorded as an
event trace. -/
inductive Ev where
  | navigate (url : String)
  | waitForLoad
  | fillField (field value : String)
  | clickField (field : String)
  | waitNetworkIdle
  | mkdirAuthDir
  | saveStorageState
deriving DecidableEq

/-- The url property of LoginPage. -/
def loginUrl : String := "https://www.saucedemo.com/"

/-- Errors that the login flow can surface: a configuration error thrown
by explicit code, or a failure of some browser action (navigation, fill,
click, wait). -/
inductive FixtureError where
  | configError (msg : String)
  | loginFailure
deriving DecidableEq

/-- The ordered browser interactions of setupAuthState: navigate to the
login page, wait for load, fill both credential fields with the
environment values (empty string when unset), click the login button,
wait for network idle, then create the auth directory and save the
storage state.  The source performs no credential check. -/
def setupAuthStateEvents (env : Env) : List Ev :=
  [.navigate loginUrl, .waitForLoad,
   .fillField "username" (envOrEmpty env.adminUsername),
   .fillField "password" (envOrEmpty env.adminPassword),
   .clickField "login-button", .waitNetworkIdle,
   .mkdirAuthDir, .saveStorageState]

/-- setupAuthState from auth.fixture: drives the login flow and persists
the resulting storage state.  The browserFails flag models a thrown
browser action (before the persistence step); the function itself never
raises a configuration error. -/
def setupAuthState (env : Env) (browserFails : Bool) (fs : Fs) (now : Int)
    (blob : Nat) : Except FixtureError (List Ev × Fs) :=
  if browserFails then .error .loginFailure
  else .ok (setupAuthStateEvents env, persistState fs now blob)

/-- LoginPage.loginWithCredentials: reads both credentials (empty string
when unset) and throws before any page interaction when either is empty;
otherwise fills the password, clicks the username field, the login
button and the Swag Labs text, then waits for network idle. -/
def loginWithCredentials (env : Env) : Except FixtureError (List Ev) :=
  let username := envOrEmpty env.adminUsername
  let password := envOrEmpty env.adminPassword
  if username = "" || password = "" then
    .error (.configError "Credentials not found in environment variables")
  else
    .ok [.fillField "password" password, .clickField "username",
         .clickField "login-button", .clickField "Swag Labs",
         .waitNetworkIdle]

/-- Outcome of the test body that runs while the fixture has handed it
the page or context. -/
inductive BodyOutcome where
  | passed
  | failed
  | aborted
deriving DecidableEq

/-- Observable trace of one run of a fixture: the final filesystem, how
often setupAuthState was invoked, whether the temporary setup context
and the main context were opened and closed, and the error the fixture
surfaced, if any. -/
structure FixtureTrace where
  fs : Fs
  loginCalls : Nat
  setupContextOpened : Bool
  setupContextClosed : Bool
  mainContextOpened : Bool
  mainContextClosed : Bool
  err : Option FixtureError

/-- The page fixture of auth.fixture: when the state file is missing or
stale it clears the state, opens a temporary context, runs setupAuthState
in a try block whose finally closes that context, and propagates a login
failure; otherwise (and after a successful regeneration) it opens the
main context from the stored state, creates a page, hands it to the test
body, and closes the context after the body finishes.  Following the
fixture protocol of the test framework, the handing-over returns
normally whether the body passes, fails or is aborted, so the close step
after it runs in each of those cases. -/
def pageFixture (env : Env) (browserFails : Bool) (fs : Fs) (now : Int)
    (blob : Nat) (body : BodyOutcome) : FixtureTrace :=
  if (fs STORAGE_STATE_PATH).isNone || isAuthStateStale noErr fs now then
    match setupAuthState env browserFails (clearAuthState noErr fs) now blob with
    | .ok (_, fs2) => ⟨fs2, 1, true, true, true, true, none⟩
    | .error e => ⟨clearAuthState noErr fs, 1, true, true, false, false, some e⟩
  else
    ⟨fs, 0, false, false, true, true, none⟩

/-- The authenticatedContext fixture of auth.fixture: identical staleness
check, regeneration and cleanup structure as the page fixture, handing
the context itself to the test body. -/
def authenticatedContextFixture (env : Env) (browserFails : Bool) (fs : Fs)
    (now : Int) (blob : Nat) (body : BodyOutcome) : FixtureTrace :=
  if (fs STORAGE_STATE_PATH).isNone || isAuthStateStale noErr fs now then
    match setupAuthState env browserFails (clearAuthState noErr fs) now blob with
    | .ok (_, fs2) => ⟨fs2, 1, true, true, true, true, none⟩
    | .error e => ⟨clearAuthState noErr fs, 1, true, true, false, false, some e⟩
  else
    ⟨fs, 0, false, false, true, true, none⟩

/-- Helper: the write puts the new record at the identity path. -/
theorem persistState_at (fs : Fs) (now : Int) (blob : Nat) :
    persistState fs now blob STORAGE_STATE_PATH = some ⟨now, blob⟩ := by
  simp [persistState]

/-- Helper: the write touches no other path. -/
theorem persistState_frame (fs : Fs) (now : Int) (blob : Nat) (q : String)
    (hq : q ≠ STORAGE_STATE_PATH) : persistState fs now blob q = fs q := by
  simp [persistState, hq]

/-- Helper: clearAuthState touches no path other than the identity
path, under every error oracle. -/
theorem clearAuthState_frame (e : ErrOracle) (fs : Fs) (q : String)
    (hq : q ≠ STORAGE_STATE_PATH) : clearAuthState e fs q = fs q := by
  cases he : e.existsErr with
  | true => simp [clearAuthState, clearAuthStateTry, existsSync, he]
  | false =>
    cases hf : fs STORAGE_STATE_PATH with
    | none => simp [clearAuthState, clearAuthStateTry, existsSync, he, hf]
    | some fi =>
      cases hu : e.unlinkErr with
      | true =>
        simp [clearAuthState, clearAuthStateTry, existsSync, unlinkSync,
          he, hf, hu]
      | false =>
        simp [clearAuthState, clearAuthStateTry, existsSync, unlinkSync,
          he, hf, hu, hq]

/-- Helper: an error-free clearAuthState leaves no file at the identity
path. -/
theorem clearAuthState_at_path (fs : Fs) :
    clearAuthState noErr fs STORAGE_STATE_PATH = none := by
  cases hf : fs STORAGE_STATE_PATH with
  | none => simp [clearAuthState, clearAuthStateTry, existsSync, noErr, hf]
  | some fi =>
    simp [clearAuthState, clearAuthStateTry, existsSync, unlinkSync,
      noErr, hf]

/-- Helper: the regeneration condition of the fixtures holds whenever
the file is absent or the staleness check fires. -/
theorem staleCond_true (fs : Fs) (now : Int)
    (h : fs STORAGE_STATE_PATH = none ∨
         isAuthStateStale noErr fs now = true) :
    ((fs STORAGE_STATE_PATH).isNone || isAuthStateStale noErr fs now)
      = true := by
  rcases h with h | h
  · simp [h]
  · simp [h]

/-- Helper: a state persisted at time now is not stale at time now. -/
theorem isAuthStateStale_persist (fs : Fs) (now : Int) (blob : Nat) :
    isAuthStateStale noErr (persistState fs now blob) now = false := by
  rw [isAuthStateStale_noErr_eq, persistState_at]
  simp only [decide_eq_false_iff_not, not_lt]
  unfold AUTH_STATE_MAX_AGE_MS
  omega

/-- Claim C2 (counterexample): with both admin credentials unset, the
regeneration path raises no error at all: setupAuthState returns
normally, its first action is the navigation to the login page, and it
fills both credential fields with the empty string.  This refutes the
claim that a ConfigurationError is raised before any navigation. -/
theorem setupAuthState_no_config_check_cex :
    setupAuthState ⟨none, none⟩ false (fun _ => none) 0 0 =
      .ok (setupAuthStateEvents ⟨none, none⟩,
           persistState (fun _ => none) 0 0) ∧
    (setupAuthStateEvents ⟨none, none⟩).head? =
      some (.navigate loginUrl) ∧
    Ev.fillField "username" "" ∈ setupAuthStateEvents ⟨none, none⟩ ∧
    Ev.fillField "password" "" ∈ setupAuthStateEvents ⟨none, none⟩ := by
  refine ⟨rfl, rfl, ?_, ?_⟩ <;> simp [setupAuthStateEvents, envOrEmpty]

/-- Claim C2 (amended): when the admin credentials are unset, the
fixture's regeneration path raises no ConfigurationError: setupAuthState
navigates to the login page first and submits blank credentials, and the
page fixture completes without surfacing an error; the fail-fast
credential check lives only in LoginPage.loginWithCredentials, which the
fixture does not call and which throws the credentials error before any
page interaction. -/
theorem setupAuthState_blank_submission (env : Env) (fs : Fs) (now : Int)
    (blob : Nat) (body : BodyOutcome)
    (h1 : env.adminUsername = none) (h2 : env.adminPassword = none) :
    (∀ er, setupAuthState env false fs now blob ≠ .error er) ∧
    (setupAuthStateEvents env).head? = some (.navigate loginUrl) ∧
    Ev.fillField "username" "" ∈ setupAuthStateEvents env ∧
    Ev.fillField "password" "" ∈ setupAuthStateEvents env ∧
    (pageFixture env false fs now blob body).err = none ∧
    loginWithCredentials env =
      .error (.configError
        "Credentials not found in environment variables") := by
  refine ⟨?_, rfl, ?_, ?_, ?_, ?_⟩
  · intro er
    simp [setupAuthState]
  · simp [setupAuthStateEvents, envOrEmpty, h1]
  · simp [setupAuthStateEvents, envOrEmpty, h2]
  · unfold pageFixture setupAuthState
    split
    · rfl
    · rfl
  · simp [loginWithCredentials, envOrEmpty, h1, h2]

/-- Witness for the amended C2 at concrete inputs. -/
theorem setupAuthState_blank_submission_witness :
    setupAuthState ⟨none, none⟩ false (fun _ => none) 0 0 ≠
      .error (.configError
        "Credentials not found in environment variables") ∧
    (pageFixture ⟨none, none⟩ false (fun _ => none) 0 0
      BodyOutcome.passed).err = none ∧
    loginWithCredentials ⟨none, none⟩ =
      .error (.configError
        "Credentials not found in environment variables") := by
  have h := setupAuthState_blank_submission ⟨none, none⟩ (fun _ => none)
    0 0 .passed rfl rfl
  exact ⟨h.1 _, h.2.2.2.2.1, h.2.2.2.2.2⟩

/-- Claim C3: when the persisted state is absent or stale, the page
fixture invokes the login procedure exactly once, and immediately
afterwards the staleness check on the same path returns false. -/
theorem pageFixture_regenerates (env : Env) (fs : Fs) (now : Int)
    (blob : Nat) (body : BodyOutcome)
    (h : fs STORAGE_STATE_PATH = none ∨
         isAuthStateStale noErr fs now = true) :
    (pageFixture env false fs now blob body).loginCalls = 1 ∧
    isAuthStateStale noErr (pageFixture env false fs now blob body).fs now
      = false := by
  unfold pageFixture setupAuthState
  rw [staleCond_true fs now h]
  exact ⟨rfl, isAuthStateStale_persist (clearAuthState noErr fs) now blob⟩

/-- Witness for C3: an empty filesystem is regenerated. -/
theorem pageFixture_regenerates_witness :
    (pageFixture ⟨none, none⟩ false (fun _ => none) 0 0
      BodyOutcome.passed).loginCalls = 1 ∧
    isAuthStateStale noErr
      (pageFixture ⟨none, none⟩ false (fun _ => none) 0 0
        BodyOutcome.passed).fs 0 = false :=
  pageFixture_regenerates ⟨none, none⟩ (fun _ => none) 0 0 .passed
    (Or.inl rfl)

/-- Claim C4: when the persisted state exists and its age is at most the
maximum age, the page fixture performs zero login-procedure invocations
and leaves the whole filesystem unchanged, handing the test a context
built from the existing state. -/
theorem pageFixture_fresh_reuse (env : Env) (browserFails : Bool)
    (fs : Fs) (now : Int) (blob : Nat) (body : BodyOutcome) (fi : FileInfo)
    (hfile : fs STORAGE_STATE_PATH = some fi)
    (hage : now - fi.mtime ≤ AUTH_STATE_MAX_AGE_MS) :
    pageFixture env browserFails fs now blob body =
      ⟨fs, 0, false, false, true, true, none⟩ := by
  have hstale : isAuthStateStale noErr fs now = false := by
    rw [isAuthStateStale_noErr_eq, hfile]
    simp only [decide_eq_false_iff_not, not_lt]
    exact hage
  have hnone : (fs STORAGE_STATE_PATH).isNone = false := by
    rw [hfile]; rfl
  unfold pageFixture
  rw [hnone, hstale]
  rfl

/-- Witness for C4: a zero-age state is reused untouched. -/
theorem pageFixture_fresh_reuse_witness :
    pageFixture ⟨none, none⟩ false
      (fun q => if q = STORAGE_STATE_PATH then some ⟨0, 7⟩ else none)
      0 0 BodyOutcome.passed =
      ⟨fun q => if q = STORAGE_STATE_PATH then some ⟨0, 7⟩ else none,
       0, false, false, true, true, none⟩ :=
  pageFixture_fresh_reuse ⟨none, none⟩ false _ 0 0 .passed ⟨0, 7⟩
    (by simp) (by decide)

/-- Claim C5: when the state is absent or stale and the login procedure
throws, the page fixture surfaces the login failure, leaves no file at
the state path (the old stale file was removed by the invalidate step
and no new one is written), touches no other path, and never opens the
authenticated main context. -/
theorem pageFixture_login_throw (env : Env) (fs : Fs) (now : Int)
    (blob : Nat) (body : BodyOutcome)
    (h : fs STORAGE_STATE_PATH = none ∨
         isAuthStateStale noErr fs now = true) :
    (pageFixture env true fs now blob body).err = some .loginFailure ∧
    (pageFixture env true fs now blob body).fs STORAGE_STATE_PATH
      = none ∧
    (∀ q : String, q ≠ STORAGE_STATE_PATH →
        (pageFixture env true fs now blob body).fs q = fs q) ∧
    (pageFixture env true fs now blob body).mainContextOpened = false := by
  unfold pageFixture setupAuthState
  rw [staleCond_true fs now h]
  exact ⟨rfl, clearAuthState_at_path fs,
    fun q hq => clearAuthState_frame noErr fs q hq, rfl⟩

/-- Witness for C5: a failing login on an empty filesystem. -/
theorem pageFixture_login_throw_witness :
    (pageFixture ⟨none, none⟩ true (fun _ => none) 0 0
      BodyOutcome.passed).err = some .loginFailure ∧
    (pageFixture ⟨none, none⟩ true (fun _ => none) 0 0
      BodyOutcome.passed).fs STORAGE_STATE_PATH = none ∧
    (pageFixture ⟨none, none⟩ true (fun _ => none) 0 0
      BodyOutcome.passed).mainContextOpened = false := by
  have h := pageFixture_login_throw ⟨none, none⟩ (fun _ => none) 0 0
    .passed (Or.inl rfl)
  exact ⟨h.1, h.2.1, h.2.2.2⟩

/-- Claim C6: on every run of the page fixture and of the
authenticatedContext fixture, each browser context that was opened is
also closed, for every body outcome (passed, failed or aborted) and
whether or not the login procedure throws. -/
theorem fixture_context_release (env : Env) (browserFails : Bool)
    (fs : Fs) (now : Int) (blob : Nat) (body : BodyOutcome) :
    ((pageFixture env browserFails fs now blob body).setupContextClosed =
      (pageFixture env browserFails fs now blob body).setupContextOpened) ∧
    ((pageFixture env browserFails fs now blob body).mainContextClosed =
      (pageFixture env browserFails fs now blob body).mainContextOpened) ∧
    ((authenticatedContextFixture env browserFails fs now blob
        body).setupContextClosed =
      (authenticatedContextFixture env browserFails fs now blob
        body).setupContextOpened) ∧
    ((authenticatedContextFixture env browserFails fs now blob
        body).mainContextClosed =
      (authenticatedContextFixture env browserFails fs now blob
        body).mainContextOpened) := by
  refine ⟨?_, ?_, ?_, ?_⟩
  · unfold pageFixture
    split
    · split <;> rfl
    · rfl
  · unfold pageFixture
    split
    · split <;> rfl
    · rfl
  · unfold authenticatedContextFixture
    split
    · split <;> rfl
    · rfl
  · unfold authenticatedContextFixture
    split
    · split <;> rfl
    · rfl

/-- Claim C8: the cache maintains a single persisted-state file at the
identity path: regeneration fully replaces the prior content at that one
path and leaves every other path unchanged, invalidate removes at most
that one file, and a page fixture run never modifies any path other than
the identity path. -/
theorem single_file_invariant :
    (∀ (fs : Fs) (now : Int) (blob : Nat),
        persistState fs now blob STORAGE_STATE_PATH = some ⟨now, blob⟩) ∧
    (∀ (fs : Fs) (now : Int) (blob : Nat) (q : String),
        q ≠ STORAGE_STATE_PATH → persistState fs now blob q = fs q) ∧
    (∀ (e : ErrOracle) (fs : Fs) (q : String),
        q ≠ STORAGE_STATE_PATH → clearAuthState e fs q = fs q) ∧
    (∀ (env : Env) (browserFails : Bool) (fs : Fs) (now : Int)
        (blob : Nat) (body : BodyOutcome) (q : String),
        q ≠ STORAGE_STATE_PATH →
        (pageFixture env browserFails fs now blob body).fs q = fs q) := by
  refine ⟨persistState_at, persistState_frame, clearAuthState_frame, ?_⟩
  intro env browserFails fs now blob body q hq
  unfold pageFixture setupAuthState
  cases browserFails with
  | true =>
    split
    · exact clearAuthState_frame noErr fs q hq
    · rfl
  | false =>
    split
    · show persistState (clearAuthState noErr fs) now blob q = fs q
      rw [persistState_frame _ _ _ _ hq, clearAuthState_frame noErr fs q hq]
    · rfl

/-- Witness for C8 at a concrete foreign path. -/
theorem single_file_invariant_witness :
    persistState (fun _ => none) 0 7 STORAGE_STATE_PATH = some ⟨0, 7⟩ ∧
    persistState (fun _ => none) 0 7 "other.txt" = none ∧
    clearAuthState noErr (fun _ => none) "other.txt" = none ∧
    (pageFixture ⟨none, none⟩ false (fun _ => none) 0 7
      BodyOutcome.passed).fs "other.txt" = none := by
  refine ⟨single_file_invariant.1 _ 0 7,
    single_file_invariant.2.1 _ 0 7 "other.txt" (by decide),
    single_file_invariant.2.2.1 noErr _ "other.txt" (by decide),
    single_file_invariant.2.2.2 ⟨none, none⟩ false _ 0 7
      BodyOutcome.passed "other.txt" (by decide)⟩

/-- Per-attempt outcomes of the browser calls made by fillWithRetry: the
result of the fill call and of the input-value read-back on attempt i. -/
structure FillEnv where
  fillRes : Nat → Except Unit Unit
  readRes : Nat → Except Unit String

/-- Loop of fillWithRetry from utils/helpers, at loop index i: each
attempt fills the field and reads the value back inside a try-block,
returning when the read-back equals the requested value; a thrown error
is rethrown on the last attempt and otherwise swallowed after a delay;
when the attempts run out, the loop falls through and the function
returns normally. -/
def fillWithRetryGo (env : FillEnv) (value : String) (retries : Nat)
    (i : Nat) : Except Unit Unit :=
  if h : i < retries then
    match env.fillRes i with
    | .error e =>
      if i = retries - 1 then .error e
      else fillWithRetryGo env value retries (i + 1)
    | .ok _ =>
      match env.readRes i with
      | .error e =>
        if i = retries - 1 then .error e
        else fillWithRetryGo env value retries (i + 1)
      | .ok current =>
        if current = value then .ok ()
        else fillWithRetryGo env value retries (i + 1)
  else .ok ()
termination_by retries - i

/-- fillWithRetry from utils/helpers: runs the retry loop from index
zero. -/
def fillWithRetry (env : FillEnv) (value : String) (retries : Nat) :
    Except Unit Unit :=
  fillWithRetryGo env value retries 0

/-- Helper: when every attempt fills successfully and reads back a wrong
value, the loop exhausts its attempts and returns normally from any
start index. -/
theorem fillWithRetryGo_exhausts (env : FillEnv) (value : String)
    (retries : Nat)
    (h : ∀ j, j < retries → env.fillRes j = .ok () ∧
         ∃ s, env.readRes j = .ok s ∧ s ≠ value) :
    ∀ (n i : Nat), retries - i ≤ n →
      fillWithRetryGo env value retries i = .ok () := by
  intro n
  induction n with
  | zero =>
    intro i hi
    unfold fillWithRetryGo
    rw [dif_neg (by omega)]
  | succ n ih =>
    intro i hi
    unfold fillWithRetryGo
    by_cases hlt : i < retries
    · rw [dif_pos hlt]
      obtain ⟨hfill, s, hread, hne⟩ := h i hlt
      simp only [hfill, hread, if_neg hne]
      exact ih (i + 1) (by omega)
    · rw [dif_neg hlt]

/-- Claim C9: fillWithRetry can return normally without throwing even
though the field was never set to the requested value: whenever the fill
call succeeds on each of the attempts but the read-back value never
equals the requested value, the loop exhausts its attempts and the
function returns without error. -/
theorem fillWithRetry_silent_exhaustion (env : FillEnv) (value : String)
    (retries : Nat)
    (h : ∀ j, j < retries → env.fillRes j = .ok () ∧
         ∃ s, env.readRes j = .ok s ∧ s ≠ value) :
    fillWithRetry env value retries = .ok () :=
  fillWithRetryGo_exhausts env value retries h retries 0 (by omega)

/-- Witness for C9: three attempts that always read back a wrong value
still return normally. -/
theorem fillWithRetry_silent_exhaustion_witness :
    fillWithRetry ⟨fun _ => .ok (), fun _ => .ok "wrong"⟩ "v" 3
      = .ok () :=
  fillWithRetry_silent_exhaustion
    ⟨fun _ => .ok (), fun _ => .ok "wrong"⟩ "v" 3
    (fun j _ => ⟨rfl, "wrong", rfl, by decide⟩)

/-- Result of one retryUntil run: the overall outcome and how many times
the action and the condition were invoked. -/
structure RetryResult where
  result : Except String Unit
  actionCalls : Nat
  condCalls : Nat

/-- The message of the error thrown when the condition is never met,
interpolating maxRetries like the source template string. -/
def retryMsg (maxRetries : Int) : String :=
  "Condition not met after " ++ toString maxRetries ++ " retries"

/-- Loop of retryUntil from utils/helpers with r iterations left,
starting at attempt index i: each iteration invokes the action once, then
the condition once, and returns as soon as the condition holds; when the
iterations run out the error is thrown. -/
def retryUntilGo (cond : Nat → Bool) (msg : String) :
    Nat → Nat → RetryResult
  | 0, _ => ⟨.error msg, 0, 0⟩
  | r + 1, i =>
    if cond i then ⟨.ok (), 1, 1⟩
    else
      ⟨(retryUntilGo cond msg r (i + 1)).result,
       (retryUntilGo cond msg r (i + 1)).actionCalls + 1,
       (retryUntilGo cond msg r (i + 1)).condCalls + 1⟩

/-- retryUntil from utils/helpers: a JS for-loop running while the index
is below maxRetries, so a non-positive maxRetries runs zero iterations
and throws at once. -/
def retryUntil (cond : Nat → Bool) (maxRetries : Int) : RetryResult :=
  retryUntilGo cond (retryMsg maxRetries) maxRetries.toNat 0

/-- Helper: the loop result is the error exactly when the condition is
false on all remaining attempt indices. -/
theorem retryUntilGo_error_iff (cond : Nat → Bool) (msg : String) :
    ∀ (r i : Nat),
      (retryUntilGo cond msg r i).result = .error msg ↔
        ∀ j, j < r → cond (i + j) = false := by
  intro r
  induction r with
  | zero =>
    intro i
    constructor
    · intro _ j hj
      omega
    · intro _
      rfl
  | succ r ih =>
    intro i
    cases hc : cond i with
    | true =>
      simp only [retryUntilGo, hc, if_true]
      constructor
      · intro habs
        exact absurd habs (by simp)
      · intro hall
        have := hall 0 (by omega)
        rw [Nat.add_zero] at this
        rw [hc] at this
        exact absurd this (by simp)
    | false =>
      simp only [retryUntilGo, hc, Bool.false_eq_true, if_false]
      rw [ih (i + 1)]
      constructor
      · intro hall j hj
        cases j with
        | zero =>
          rw [Nat.add_zero]
          exact hc
        | succ k =>
          have hk : k < r := by omega
          have := hall k hk
          have harg : i + 1 + k = i + (k + 1) := by omega
          rw [harg] at this
          exact this
      · intro hall j hj
        have harg : i + 1 + j = i + (j + 1) := by omega
        rw [harg]
        exact hall (j + 1) (by omega)

/-- Helper: when the condition first holds at offset j of the remaining
attempts, the loop stops there with one action and one condition call
per attempt made. -/
theorem retryUntilGo_first_true (cond : Nat → Bool) (msg : String) :
    ∀ (r i j : Nat), j < r → cond (i + j) = true →
      (∀ k, k < j → cond (i + k) = false) →
      retryUntilGo cond msg r i = ⟨.ok (), j + 1, j + 1⟩ := by
  intro r
  induction r with
  | zero =>
    intro i j hj
    omega
  | succ r ih =>
    intro i j hj htrue hbefore
    cases j with
    | zero =>
      rw [Nat.add_zero] at htrue
      simp only [retryUntilGo, htrue, if_true]
    | succ k =>
      have hc : cond i = false := by
        have := hbefore 0 (by omega)
        rw [Nat.add_zero] at this
        exact this
      simp only [retryUntilGo, hc, Bool.false_eq_true, if_false]
      have harg : i + (k + 1) = i + 1 + k := by omega
      rw [harg] at htrue
      have hrest : retryUntilGo cond msg r (i + 1) = ⟨.ok (), k + 1, k + 1⟩ := by
        refine ih (i + 1) k (by omega) htrue ?_
        intro k2 hk2
        have harg2 : i + 1 + k2 = i + (k2 + 1) := by omega
        rw [harg2]
        exact hbefore (k2 + 1) (by omega)
      rw [hrest]

/-- Helper: the loop invokes the action and the condition equally
often. -/
theorem retryUntilGo_calls_eq (cond : Nat → Bool) (msg : String) :
    ∀ (r i : Nat),
      (retryUntilGo cond msg r i).actionCalls =
        (retryUntilGo cond msg r i).condCalls := by
  intro r
  induction r with
  | zero =>
    intro i
    rfl
  | succ r ih =>
    intro i
    cases hc : cond i with
    | true => simp only [retryUntilGo, hc, if_true]
    | false =>
      simp only [retryUntilGo, hc, Bool.false_eq_true, if_false]
      rw [ih (i + 1)]

/-- Claim C10: retryUntil invokes the action once per attempt (always as
often as the condition) and returns as soon as the condition evaluates
true, with the action and condition each invoked first-true-index plus
one times; it throws the error message exactly when the condition is
false on every one of the attempts; and for non-positive maxRetries it
throws without invoking the action or the condition at all. -/
theorem retryUntil_spec :
    (∀ (cond : Nat → Bool) (maxRetries : Int), maxRetries ≤ 0 →
        retryUntil cond maxRetries =
          ⟨.error (retryMsg maxRetries), 0, 0⟩) ∧
    (∀ (cond : Nat → Bool) (maxRetries : Int),
        (retryUntil cond maxRetries).result =
            .error (retryMsg maxRetries) ↔
          ∀ i, i < maxRetries.toNat → cond i = false) ∧
    (∀ (cond : Nat → Bool) (maxRetries : Int) (j : Nat),
        j < maxRetries.toNat → cond j = true →
        (∀ k, k < j → cond k = false) →
          retryUntil cond maxRetries = ⟨.ok (), j + 1, j + 1⟩) ∧
    (∀ (cond : Nat → Bool) (maxRetries : Int),
        (retryUntil cond maxRetries).actionCalls =
          (retryUntil cond maxRetries).condCalls) := by
  refine ⟨?_, ?_, ?_, ?_⟩
  · intro cond maxRetries hle
    unfold retryUntil
    rw [Int.toNat_of_nonpos hle]
    rfl
  · intro cond maxRetries
    unfold retryUntil
    rw [retryUntilGo_error_iff cond (retryMsg maxRetries) maxRetries.toNat 0]
    constructor
    · intro hall i hi
      have := hall i hi
      rw [Nat.zero_add] at this
      exact this
    · intro hall j hj
      rw [Nat.zero_add]
      exact hall j hj
  · intro cond maxRetries j hj htrue hbefore
    unfold retryUntil
    refine retryUntilGo_first_true cond (retryMsg maxRetries)
      maxRetries.toNat 0 j hj ?_ ?_
    · rw [Nat.zero_add]
      exact htrue
    · intro k hk
      rw [Nat.zero_add]
      exact hbefore k hk
  · intro cond maxRetries
    exact retryUntilGo_calls_eq cond (retryMsg maxRetries) maxRetries.toNat 0

/-- Witness for C10: a negative retry budget throws at once with zero
invocations, and a condition first true on the second attempt stops the
loop there with two action calls. -/
theorem retryUntil_spec_witness :
    retryUntil (fun _ => true) (-1) =
      ⟨.error (retryMsg (-1)), 0, 0⟩ ∧
    retryUntil (fun i => decide (i = 1)) 5 = ⟨.ok (), 2, 2⟩ ∧
    ((retryUntil (fun _ => false) 2).result =
      .error (retryMsg 2)) := by
  refine ⟨retryUntil_spec.1 (fun _ => true) (-1) (by decide), ?_, ?_⟩
  · exact retryUntil_spec.2.2.1 (fun i => decide (i = 1)) 5 1 (by decide)
      (by decide) (fun k hk => by
        interval_cases k
        decide)
  · exact (retryUntil_spec.2.1 (fun _ => false) 2).mpr (fun i _ => rfl)

end Test200126
